import Mathlib

/-!
Verification of the Tennis_Booking availability and booking pipeline.

This file shallowly embeds the core of the repository (the natural-language
timeframe parser in `timeframe_parser.py`, the two portal adapters in
`scrapers_v2.py`, the preference scoring engine in `preference_engine.py`,
and the booking executor in `booking.py`) as executable Lean definitions,
and proves properties about them.

Modelling conventions:
* Python strings are `String`/`List Char`; Python `dict` slot payloads become
  a `Slot` structure whose fields are `Option String` (a missing key is
  `none`).
* Python `in` (substring test) is `pyInL`; `str.lower`, `str.strip` and the
  regular expressions of the source are hand-translated character scanners
  with the same leftmost-match and greedy-with-backtracking semantics.
* Network and file effects are passed in explicitly as environment records;
  Python exceptions become `Except`/`Option`.
* Python `float` arithmetic in the preference engine is modelled with `ℚ`.
-/

/-- Numeric value of a decimal digit character. -/
def dval (c : Char) : Nat := c.toNat - '0'.toNat

/-- Whitespace for Python regular-expression `\s` and `str.strip`
(ASCII whitespace plus the common Unicode space code points). -/
def pyIsSpace (c : Char) : Bool :=
  c == ' ' || c == '\t' || c == '\n' || c == '\r' ||
  c.toNat == 0xB || c.toNat == 0xC ||
  c.toNat == 0x1C || c.toNat == 0x1D || c.toNat == 0x1E || c.toNat == 0x1F ||
  c.toNat == 0x85 || c.toNat == 0xA0 || c.toNat == 0x1680 ||
  decide (0x2000 ≤ c.toNat ∧ c.toNat ≤ 0x200A) ||
  c.toNat == 0x2028 || c.toNat == 0x2029 || c.toNat == 0x202F ||
  c.toNat == 0x205F || c.toNat == 0x3000

/-- ASCII lower-casing of one character, as `str.lower` acts on ASCII. -/
def pyLowerChar (c : Char) : Char :=
  if 'A' ≤ c ∧ c ≤ 'Z' then Char.ofNat (c.toNat + 32) else c

/-- Lower-case a character list (model of `str.lower`). -/
def lowerL (l : List Char) : List Char := l.map pyLowerChar

/-- Model of `str.strip()`: drop whitespace from both ends. -/
def trimL (l : List Char) : List Char :=
  ((l.dropWhile pyIsSpace).reverse.dropWhile pyIsSpace).reverse

/-- Boolean list-prefix test. -/
def isPrefixL : List Char → List Char → Bool
  | [], _ => true
  | _ :: _, [] => false
  | a :: as, b :: bs => a == b && isPrefixL as bs

/-- Model of the Python substring operator `needle in hay`. -/
def pyInL : List Char → List Char → Bool
  | n, [] => n.isEmpty
  | n, c :: rest => isPrefixL n (c :: rest) || pyInL n rest

/-- Substring operator on `String`. -/
def pyInS (needle hay : String) : Bool := pyInL needle.data hay.data

/-- Fuel-bounded worker for `replaceL`; replaces leftmost non-overlapping
occurrences of `pat` (assumed nonempty) by `rep`.  The fuel is the input
length, which bounds the number of steps. -/
def replaceAux (pat rep : List Char) : Nat → List Char → List Char
  | 0, l => l
  | _ + 1, [] => []
  | fuel + 1, c :: rest =>
    if isPrefixL pat (c :: rest) then
      rep ++ replaceAux pat rep fuel (List.drop pat.length (c :: rest))
    else c :: replaceAux pat rep fuel rest

/-- Model of Python `str.replace` for a nonempty pattern (all our patterns
are nonempty; an empty pattern is returned unchanged). -/
def replaceL (l pat rep : List Char) : List Char :=
  if pat.isEmpty then l else replaceAux pat rep l.length l

/-- Worker for whitespace collapsing: `inRun` records whether the previous
character was whitespace already emitted as a single space. -/
def collapseWsAux : Bool → List Char → List Char
  | _, [] => []
  | inRun, c :: rest =>
    if pyIsSpace c then
      (if inRun then [] else [' ']) ++ collapseWsAux true rest
    else c :: collapseWsAux false rest

/-- Model of `re.sub(r"\s+", " ", text)`. -/
def collapseWs (l : List Char) : List Char := collapseWsAux false l

/-- The literal pattern string that line 52 of `timeframe_parser.py` really
replaces: due to the mojibake-damaged quotes in the source, the triple quote
opens a string containing a comma, quotes and a `.replace(` fragment. -/
def weirdQuotePat : List Char :=
  [',', ' ', '"', Char.ofNat 39, '"', ')', '.', 'r', 'e', 'p', 'l', 'a', 'c', 'e', '(']

/-- Model of `TimeframeParser._normalize_input` as the source actually
executes: two identity replacements of the straight double quote, the
mojibake pattern of line 52, the German low quote, three dash variants,
two non-breaking spaces, then whitespace collapsing. -/
def normalizeInput (l : List Char) : List Char :=
  let l := replaceL (replaceL l ['"'] ['"']) ['"'] ['"']
  let l := replaceL l weirdQuotePat [Char.ofNat 39]
  let l := replaceL (replaceL l [Char.ofNat 0x201E] ['"']) ['"'] ['"']
  let l := replaceL l [Char.ofNat 0x2013] ['-']
  let l := replaceL l [Char.ofNat 0x2014] ['-']
  let l := replaceL l [Char.ofNat 0x2212] ['-']
  let l := replaceL l [Char.ofNat 0xA0] [' ']
  let l := replaceL l [Char.ofNat 0x202F] [' ']
  collapseWs l

/-- The text preprocessing performed by `TimeframeParser.parse`:
`text.lower().strip()` followed by `_normalize_input`. -/
def pyNormL (s : String) : List Char := normalizeInput (trimL (lowerL s.data))

/-- Two-digit zero padding, as the `%02d`/`{:02d}` format directive
(for values of at least 100 both print all digits). -/
def pad2 (n : Nat) : String := if n < 10 then "0" ++ Nat.repr n else Nat.repr n

/-- Drop leading regex whitespace (`\s*`). -/
def skipWs (l : List Char) : List Char := l.dropWhile pyIsSpace

/-- Match the regex fragment `(\d{1,2}):(\d{2})` at the head of the list,
with the greedy-then-backtrack choice of the hour width: two digits are
taken only when the colon follows them, otherwise one digit followed by a
colon (a two-digit run not followed by a colon cannot backtrack into a
valid one-digit match because the colon position would hold a digit).
Returns hour value, minute value and the rest of the input. -/
def matchHHMM : List Char → Option (Nat × Nat × List Char)
  | a :: b :: rest =>
    if a.isDigit then
      if b.isDigit then
        match rest with
        | ':' :: m1 :: m2 :: r =>
          if m1.isDigit && m2.isDigit then
            some (10 * dval a + dval b, 10 * dval m1 + dval m2, r)
          else none
        | _ => none
      else if b == ':' then
        match rest with
        | m1 :: m2 :: r =>
          if m1.isDigit && m2.isDigit then
            some (dval a, 10 * dval m1 + dval m2, r)
          else none
        | _ => none
      else none
    else none
  | _ => none

/-- Match `at\s+(\d{1,2}):(\d{2})` at the head of the list (the word
boundary in front of `at` is checked by the caller). -/
def matchAtAt : List Char → Option (Nat × Nat)
  | 'a' :: 't' :: c :: rest =>
    if pyIsSpace c then
      match matchHHMM (skipWs rest) with
      | some (h, m, _) => some (h, m)
      | none => none
    else none
  | _ => none

/-- Word character for the regex `\b` boundary (ASCII view of `\w`). -/
def isWordC (c : Char) : Bool := c.isAlphanum || c == '_'

/-- Leftmost search for `\bat\s+(\d{1,2}):(\d{2})`, tracking the previous
character to decide the word boundary. -/
def findAtAux : Option Char → List Char → Option (Nat × Nat)
  | _, [] => none
  | prev, c :: rest =>
    let boundary : Bool :=
      match prev with
      | none => true
      | some p => !(isWordC p)
    match (if boundary then matchAtAt (c :: rest) else none) with
    | some r => some r
    | none => findAtAux (some c) rest

/-- First match of the `at HH:MM` pattern in the text. -/
def findAt (l : List Char) : Option (Nat × Nat) := findAtAux none l

/-- Match `(\d{1,2}):(\d{2})\s*-\s*(\d{1,2}):(\d{2})` at the head. -/
def matchP1At (l : List Char) : Option (Nat × Nat × Nat × Nat) :=
  match matchHHMM l with
  | some (h1, m1, r1) =>
    match skipWs r1 with
    | '-' :: r2 =>
      match matchHHMM (skipWs r2) with
      | some (h2, m2, _) => some (h1, m1, h2, m2)
      | none => none
    | _ => none
  | none => none

/-- Leftmost search for the `HH:MM-HH:MM` range pattern. -/
def findP1 : List Char → Option (Nat × Nat × Nat × Nat)
  | [] => none
  | c :: rest =>
    match matchP1At (c :: rest) with
    | some g => some g
    | none => findP1 rest

/-- Optional `(pm|am)` match at the head, returning the group and rest. -/
def tryPeriod : List Char → Option String × List Char
  | 'p' :: 'm' :: r => (some "pm", r)
  | 'a' :: 'm' :: r => (some "am", r)
  | l => (none, l)

/-- Consume `\s*-\s*` at the head. -/
def afterDash (l : List Char) : Option (List Char) :=
  match skipWs l with
  | '-' :: r => some (skipWs r)
  | _ => none

/-- Match `(\d{1,2})\s*-\s*(\d{1,2})\s*(pm|am)?` at the head, with the same
greedy-then-backtrack width choice on the first number (a failed two-digit
attempt can never be rescued by the one-digit attempt when the second digit
exists, because the dash position would hold that digit). -/
def matchP2At : List Char → Option (Nat × Nat × Option String)
  | a :: rest =>
    if a.isDigit then
      let twoTry : Option (Nat × List Char) :=
        match rest with
        | b :: rest2 =>
          if b.isDigit then (afterDash rest2).map (fun r => (10 * dval a + dval b, r))
          else none
        | [] => none
      let first : Option (Nat × List Char) :=
        match twoTry with
        | some x => some x
        | none => (afterDash rest).map (fun r => (dval a, r))
      match first with
      | some (h1, r) =>
        match r with
        | c :: r2 =>
          if c.isDigit then
            let second : Nat × List Char :=
              match r2 with
              | e :: r4 => if e.isDigit then (10 * dval c + dval e, r4) else (dval c, r2)
              | [] => (dval c, r2)
            some (h1, second.1, (tryPeriod (skipWs second.2)).1)
          else none
        | [] => none
      | none => none
    else none
  | [] => none

/-- Leftmost search for the `H-H am/pm` range pattern. -/
def findP2 : List Char → Option (Nat × Nat × Option String)
  | [] => none
  | c :: rest =>
    match matchP2At (c :: rest) with
    | some g => some g
    | none => findP2 rest

/-- The six capture groups of the third time pattern. -/
structure P3Groups where
  sh : Nat
  sm : Nat
  sper : Option String
  eh : Nat
  em : Nat
  eper : Option String
deriving DecidableEq

/-- Match `(\d{1,2}):(\d{2})\s*(pm|am)?\s*-\s*(\d{1,2}):(\d{2})\s*(pm|am)?`
at the head. -/
def matchP3At (l : List Char) : Option P3Groups :=
  match matchHHMM l with
  | some (h1, m1, r1) =>
    let p1 := tryPeriod (skipWs r1)
    match skipWs p1.2 with
    | '-' :: r3 =>
      match matchHHMM (skipWs r3) with
      | some (h2, m2, r4) =>
        some ⟨h1, m1, p1.1, h2, m2, (tryPeriod (skipWs r4)).1⟩
      | none => none
    | _ => none
  | none => none

/-- Leftmost search for the `H:MM am/pm - H:MM am/pm` pattern. -/
def findP3 : List Char → Option P3Groups
  | [] => none
  | c :: rest =>
    match matchP3At (c :: rest) with
    | some g => some g
    | none => findP3 rest

/-- All parses of `(\d{1,2}):?(\d{2})?` at the head in greedy backtracking
order: two-digit hour before one-digit, colon consumed before skipped,
minutes consumed before skipped. -/
def numOptions : List Char → List (Nat × Option Nat × List Char)
  | a :: rest =>
    if a.isDigit then
      let hourOpts : List (Nat × List Char) :=
        (match rest with
         | b :: rest2 => if b.isDigit then [(10 * dval a + dval b, rest2)] else []
         | [] => []) ++ [(dval a, rest)]
      hourOpts.flatMap (fun hr =>
        let colonOpts : List (List Char) :=
          match hr.2 with
          | ':' :: r => [r, hr.2]
          | _ => [hr.2]
        colonOpts.flatMap (fun rc =>
          let mmOpts : List (Option Nat × List Char) :=
            (match rc with
             | m1 :: m2 :: r => if m1.isDigit && m2.isDigit then [(some (10 * dval m1 + dval m2), r)] else []
             | _ => []) ++ [(none, rc)]
          mmOpts.map (fun mo => (hr.1, mo.1, mo.2))))
    else []
  | [] => []

/-- Consume `\s+and\s+` at the head. -/
def andCont : List Char → Option (List Char)
  | c :: r =>
    if pyIsSpace c then
      match skipWs r with
      | 'a' :: 'n' :: 'd' :: c2 :: r2 => if pyIsSpace c2 then some (skipWs r2) else none
      | _ => none
    else none
  | [] => none

/-- Match `between\s+(\d{1,2}):?(\d{2})?\s+and\s+(\d{1,2}):?(\d{2})?` at the
head: the first number part backtracks against the `\s+and\s+` continuation,
the second is purely greedy. -/
def matchBetweenAt : List Char → Option (Nat × Option Nat × Nat × Option Nat)
  | 'b' :: 'e' :: 't' :: 'w' :: 'e' :: 'e' :: 'n' :: c :: rest =>
    if pyIsSpace c then
      (numOptions (skipWs rest)).findSome? (fun o1 =>
        match andCont o1.2.2 with
        | some l2 =>
          match (numOptions l2).head? with
          | some o2 => some (o1.1, o1.2.1, o2.1, o2.2.1)
          | none => none
        | none => none)
    else none
  | _ => none

/-- Leftmost search for the `between H[:MM] and H[:MM]` pattern. -/
def findBetween : List Char → Option (Nat × Option Nat × Nat × Option Nat)
  | [] => none
  | c :: rest =>
    match matchBetweenAt (c :: rest) with
    | some g => some g
    | none => findBetween rest

/-- Model of `TimeframeParser._extract_time_range`: the `at HH:MM` pattern
first, then the three range patterns in order, then `between`, then the
default range 09:00 to 21:00. -/
def extractTimeRange (l : List Char) : String × String :=
  match findAt l with
  | some (h, m) =>
    (pad2 h ++ ":" ++ pad2 m, pad2 ((h + 1) % 24) ++ ":" ++ pad2 m)
  | none =>
    match findP1 l with
    | some (sh, sm, eh, em) =>
      (pad2 sh ++ ":" ++ pad2 sm, pad2 eh ++ ":" ++ pad2 em)
    | none =>
      match findP2 l with
      | some (sh, eh, period) =>
        let sh := if period == some "pm" && !(sh == 12) then sh + 12 else sh
        let eh := if period == some "pm" && !(eh == 12) then eh + 12 else eh
        (pad2 sh ++ ":00", pad2 eh ++ ":00")
      | none =>
        match findP3 l with
        | some g =>
          let sh := if g.sper == some "pm" && !(g.sh == 12) then g.sh + 12 else g.sh
          let eh := if g.eper == some "pm" && !(g.eh == 12) then g.eh + 12 else g.eh
          (pad2 sh ++ ":" ++ pad2 g.sm, pad2 eh ++ ":" ++ pad2 g.em)
        | none =>
          match findBetween l with
          | some (sh, smo, eh, emo) =>
            (pad2 sh ++ ":" ++ (match smo with | some v => pad2 v | none => "00"),
             pad2 eh ++ ":" ++ (match emo with | some v => pad2 v | none => "00"))
          | none => ("09:00", "21:00")

/-- Match a `\d{1,2}` group followed by a required separator character
(consumed), with the greedy width discipline. -/
def matchNumSep (sepOk : Char → Bool) : List Char → Option (Nat × List Char)
  | a :: b :: rest =>
    if a.isDigit then
      if b.isDigit then
        match rest with
        | s :: r => if sepOk s then some (10 * dval a + dval b, r) else none
        | [] => none
      else if sepOk b then some (dval a, rest)
      else none
    else none
  | _ => none

/-- Separator class `[./]` of the first explicit date pattern. -/
def isDateSep (c : Char) : Bool := c == '.' || c == '/'

/-- Match `(\d{1,2})[./](\d{1,2})[./](\d{4})` at the head, returning
(day, month, year) in the group order used by the source. -/
def matchD1At (l : List Char) : Option (Nat × Nat × Nat) :=
  match matchNumSep isDateSep l with
  | some (d, r1) =>
    match matchNumSep isDateSep r1 with
    | some (m, r2) =>
      match r2 with
      | y1 :: y2 :: y3 :: y4 :: _ =>
        if y1.isDigit && y2.isDigit && y3.isDigit && y4.isDigit then
          some (d, m, 1000 * dval y1 + 100 * dval y2 + 10 * dval y3 + dval y4)
        else none
      | _ => none
    | none => none
  | none => none

/-- Leftmost search for the `DD.MM.YYYY` / `DD/MM/YYYY` pattern. -/
def findD1 : List Char → Option (Nat × Nat × Nat)
  | [] => none
  | c :: rest =>
    match matchD1At (c :: rest) with
    | some g => some g
    | none => findD1 rest

/-- Match `(\d{4})-(\d{1,2})-(\d{1,2})` at the head, returning
(year, month, day). -/
def matchD2At (l : List Char) : Option (Nat × Nat × Nat) :=
  match l with
  | y1 :: y2 :: y3 :: y4 :: '-' :: rest =>
    if y1.isDigit && y2.isDigit && y3.isDigit && y4.isDigit then
      let y := 1000 * dval y1 + 100 * dval y2 + 10 * dval y3 + dval y4
      match matchNumSep (fun c => c == '-') rest with
      | some (m, r2) =>
        match r2 with
        | a :: rest2 =>
          if a.isDigit then
            match rest2 with
            | b :: _ => if b.isDigit then some (y, m, 10 * dval a + dval b) else some (y, m, dval a)
            | [] => some (y, m, dval a)
          else none
        | [] => none
      | none => none
    else none
  | _ => none

/-- Leftmost search for the `YYYY-MM-DD` pattern. -/
def findD2 : List Char → Option (Nat × Nat × Nat)
  | [] => none
  | c :: rest =>
    match matchD2At (c :: rest) with
    | some g => some g
    | none => findD2 rest

/-- Gregorian leap-year rule, as `datetime` validity uses it. -/
def isLeap (y : Nat) : Bool := (y % 4 == 0 && y % 100 != 0) || y % 400 == 0

/-- Days in a month, used for the `datetime(year, month, day)` validity
check (an invalid triple raises `ValueError` in the source and is skipped). -/
def daysInMonth (y m : Nat) : Nat :=
  if m == 2 then (if isLeap y then 29 else 28)
  else if m == 4 || m == 6 || m == 9 || m == 11 then 30
  else 31

/-- Whether `datetime(y, m, d)` would construct without `ValueError`. -/
def isValidDate (y m d : Nat) : Bool :=
  decide (1 ≤ y) && decide (y ≤ 9999) && decide (1 ≤ m) && decide (m ≤ 12) &&
  decide (1 ≤ d) && decide (d ≤ daysInMonth y m)

/-- The WEEKDAYS dictionary of the source, in insertion order (which is the
iteration order of a Python dict). -/
def WEEKDAYS : List (String × Nat) :=
  [("monday", 0), ("mon", 0), ("tuesday", 1), ("tue", 1),
   ("wednesday", 2), ("wed", 2), ("thursday", 3), ("thu", 3),
   ("friday", 4), ("fri", 4), ("saturday", 5), ("sat", 5),
   ("sunday", 6), ("sun", 6)]

/-- First weekday name (in dictionary order) occurring as a substring of
the text, with its weekday number. -/
def firstWeekday (l : List Char) : Option Nat :=
  (WEEKDAYS.find? (fun p => pyInL p.1.data l)).map (fun p => p.2)

/-- Result of `_extract_date`: either an absolute `datetime(y, m, d)` or an
offset in days from `self.today` (`offset 0` is today itself). -/
inductive DateResult where
  | absolute (y m d : Nat)
  | offset (days : Int)
deriving DecidableEq

/-- Model of `TimeframeParser._extract_date`: explicit date patterns first
(each skipped when the matched triple is an invalid calendar date), then the
relative keywords, then the weekday names, then today. -/
def extractDate (todayW : Nat) (l : List Char) : DateResult :=
  let rel : DateResult :=
    if pyInL "today".data l then .offset 0
    else if pyInL "tomorrow".data l then .offset 1
    else if pyInL "next week".data l then .offset 7
    else
      match firstWeekday l with
      | some w =>
        let da : Int := (w : Int) - (todayW : Int)
        .offset (if da ≤ 0 then da + 7 else da)
      | none => .offset 0
  let after1 : DateResult :=
    match findD2 l with
    | some (y, m, d) => if isValidDate y m d then .absolute y m d else rel
    | none => rel
  match findD1 l with
  | some (d, m, y) => if isValidDate y m d then .absolute y m d else after1
  | none => after1

/-- The canonical timeframe triple produced by the parser. -/
structure Timeframe where
  date : DateResult
  start_time : String
  end_time : String
deriving DecidableEq

/-- Model of `TimeframeParser.parse`: lower-case, strip and normalize the
text, then extract date and time range.  `todayW` is `self.today.weekday()`. -/
def tfParse (todayW : Nat) (text : String) : Timeframe :=
  let t := pyNormL text
  let tr := extractTimeRange t
  { date := extractDate todayW t, start_time := tr.1, end_time := tr.2 }

/-- ASCII upper-casing of one character, as `str.upper` acts on ASCII. -/
def pyUpperChar (c : Char) : Char :=
  if 'a' ≤ c ∧ c ≤ 'z' then Char.ofNat (c.toNat - 32) else c

/-- Upper-case a character list (model of `str.upper`). -/
def upperL (l : List Char) : List Char := l.map pyUpperChar

/-- Format a minutes-since-midnight value as `HH:MM`
(model of `strftime("%H:%M")` for within-day values). -/
def fmtHM (t : Nat) : String := pad2 (t / 60) ++ ":" ++ pad2 (t % 60)

/-- A normalized slot payload.  Python slot dicts are open maps; every
field the pipeline reads is modelled as an `Option`, with `none` standing
for an absent key (so `slot.get(k)` is the field itself). -/
structure Slot where
  venue : Option String := none
  date : Option String := none
  day_of_week : Option String := none
  time : Option String := none
  court_name : Option String := none
  court_type : Option String := none
  indoor_outdoor : Option String := none
  duration : Option String := none
  location : Option String := none
  price : Option String := none
  square_id : Option String := none
  booking_link : Option String := none
deriving DecidableEq

/-- Fuel-bounded model of the slot-generation loop of
`DasSpielScraperV2._generate_available_slots`: starting at `cur` minutes,
step by `tb` minutes while strictly before `endT`, keeping times not in the
booked list.  Times are minutes since midnight; the booked set holds the
`HH:00` strings as `h * 60` (string equality on `HH:MM` values coincides
with numeric equality within a day).  A fuel of `endT - cur` dominates the
iteration count whenever `1 ≤ tb`; the source loops forever when the venue
reports a zero timeblock. -/
def genTimesAux (endT tb : Nat) (booked : List Nat) : Nat → Nat → List Nat
  | 0, _ => []
  | fuel + 1, cur =>
    if cur < endT then
      (if booked.contains cur then [] else [cur]) ++ genTimesAux endT tb booked fuel (cur + tb)
    else []

/-- The generated start times of the Arsenal adapter loop. -/
def genTimes (cur endT tb : Nat) (booked : List Nat) : List Nat :=
  genTimesAux endT tb booked (endT - cur) cur

/-- Start bound of the loop: hour is `max(user_start_hour, court_start_hour)`
and the minute is the user minute exactly when the user hour is at least the
court hour (lines 97-100 of `scrapers_v2.py`). -/
def dasSpielStartMin (ush usm csh : Nat) : Nat :=
  (max ush csh) * 60 + (if csh ≤ ush then usm else 0)

/-- End bound of the loop: hour is `min(user_end_hour, court_end_hour)` and
the minute is the user minute exactly when the user hour is at most the
court hour (lines 102-105 of `scrapers_v2.py`). -/
def dasSpielEndMin (ueh uem ceh : Nat) : Nat :=
  (min ueh ceh) * 60 + (if ueh ≤ ceh then uem else 0)

/-- Booked start times derived from the rentals: each rental contributes the
hours `start_hour, ..., end_hour - 1` as `HH:00` entries, kept here as
`h * 60`.  Rental times are hour-truncated by the source
(`int(rental_start.split(":")[0])`). -/
def bookedTimes (rentals : List (Nat × Nat)) : List Nat :=
  rentals.flatMap (fun r => (List.range' r.1 (r.2 - r.1)).map (fun h => h * 60))

/-- The start times (minutes since midnight) of the slots generated by the
Arsenal adapter for one court. -/
def dasSpielTimes (ush usm ueh uem csh ceh tb : Nat) (rentals : List (Nat × Nat)) : List Nat :=
  genTimes (dasSpielStartMin ush usm csh) (dasSpielEndMin ueh uem ceh) tb (bookedTimes rentals)

/-- The slot record built for one generated time (the dict literal of lines
112-123 of `scrapers_v2.py`).  Note there is no `square_id` key in the
source dict, so the field keeps its `none` default. -/
def mkDasSpielSlot (courtName dateStr dowStr : String) (tb t : Nat) : Slot :=
  { venue := some "Tenniszentrum Arsenal (Das Spiel)"
  , date := some dateStr
  , day_of_week := some dowStr
  , time := some (fmtHM t)
  , court_name := some courtName
  , court_type := some (if pyInL "HALLE".data (upperL courtName.data) then "Indoor" else "Outdoor")
  , indoor_outdoor := some (if pyInL "HALLE".data (upperL courtName.data) then "Indoor" else "Outdoor")
  , duration := some (Nat.repr tb ++ " min")
  , location := some "Arsenal, Wien"
  , price := some "N/A" }

/-- Model of `DasSpielScraperV2._generate_available_slots` for one court:
numeric time parameters are the values the source extracts from the
`HH:MM`/`HH:MM:SS` strings (user minute fields kept, court times
hour-truncated). -/
def dasSpielSlots (courtName dateStr dowStr : String)
    (ush usm ueh uem csh ceh tb : Nat) (rentals : List (Nat × Nat)) : List Slot :=
  (dasSpielTimes ush usm ueh uem csh ceh tb rentals).map (mkDasSpielSlot courtName dateStr dowStr tb)

/-- Modelled from the spec (refinement reference, not from the source): the
spec sentence prescribes every timeblock-aligned slot inside the
intersection of the user window and the court window, excluding any slot
whose start hour falls in the booked hour set.  Arguments are minutes since
midnight and booked hours. -/
def specAvailableTimes (userStart userEnd courtOpen courtClose tb : Nat)
    (bookedHours : List Nat) : List Nat :=
  (genTimes (max userStart courtOpen) (min userEnd courtClose) tb []).filter
    (fun t => !(bookedHours.contains (t / 60)))

/-- Spec-side booked hour buckets of the rentals. -/
def specBookedHours (rentals : List (Nat × Nat)) : List Nat :=
  rentals.flatMap (fun r => List.range' r.1 (r.2 - r.1))

/-- Digit-string value; `none` when empty or containing a non-digit. -/
def digitsValAux : Nat → List Char → Option Nat
  | acc, [] => some acc
  | acc, c :: r => if c.isDigit then digitsValAux (10 * acc + dval c) r else none

/-- Value of a nonempty all-digit character list. -/
def digitsVal : List Char → Option Nat
  | [] => none
  | l => digitsValAux 0 l

/-- Model of Python `int(str)`: optional surrounding whitespace, optional
sign, then decimal digits (underscore separators are not modelled). -/
def pyIntL (l : List Char) : Option Int :=
  match trimL l with
  | '-' :: ds => (digitsVal ds).map (fun n => -(n : Int))
  | '+' :: ds => (digitsVal ds).map (fun n => (n : Int))
  | ds => (digitsVal ds).map (fun n => (n : Int))

/-- Model of `map(int, time_str.split(":"))` unpacked into exactly two
values: any other shape raises in the source and is `none` here. -/
def parseHM (s : String) : Option (Int × Int) :=
  match s.data.splitOn ':' with
  | [h, m] =>
    match pyIntL h, pyIntL m with
    | some hv, some mv => some (hv, mv)
    | _, _ => none
  | _ => none

/-- Model of `PostSVScraperV2._is_in_timeframe`: compare as minutes since
midnight in a half-open window; any parse failure yields `False` through
the bare except of the source. -/
def isInTimeframe (timeStr startStr endStr : String) : Bool :=
  match parseHM timeStr, parseHM startStr, parseHM endStr with
  | some (th, tm), some (sh, sm), some (eh, em) =>
    decide (sh * 60 + sm ≤ th * 60 + tm) && decide (th * 60 + tm < eh * 60 + em)
  | _, _, _ => false

/-- Maximal digit run value with remainder. -/
def digitsRunAux : Nat → List Char → Nat
  | acc, [] => acc
  | acc, c :: r => if c.isDigit then digitsRunAux (10 * acc + dval c) r else acc

/-- Match `time=(\d+)` at the head of the list. -/
def matchTimeParamAt : List Char → Option Nat
  | 't' :: 'i' :: 'm' :: 'e' :: '=' :: c :: rest =>
    if c.isDigit then some (digitsRunAux (dval c) rest) else none
  | _ => none

/-- Leftmost `time=(\d+)` parameter of an href (seconds since midnight). -/
def findTimeParam : List Char → Option Nat
  | [] => none
  | c :: rest =>
    match matchTimeParamAt (c :: rest) with
    | some v => some v
    | none => findTimeParam rest

/-- The three-character sequence the source actually searches for in price
tooltips: the mojibake-damaged euro sign bytes decode to U+00E2 U+201A
U+00AC, not to a real euro sign. -/
def euroStr : String := String.mk [Char.ofNat 0xE2, Char.ofNat 0x201A, Char.ofNat 0xAC]

/-- Match the price pattern `â‚¬\s*([\d,]+)` at the head. -/
def matchPriceAt : List Char → Option String
  | a :: b :: c :: rest =>
    if a == Char.ofNat 0xE2 && b == Char.ofNat 0x201A && c == Char.ofNat 0xAC then
      let r := skipWs rest
      let run := r.takeWhile (fun ch => ch.isDigit || ch == ',')
      if run.isEmpty then none else some (String.mk run)
    else none
  | _ => none

/-- Leftmost price-group match in a tooltip title. -/
def findPrice : List Char → Option String
  | [] => none
  | c :: rest =>
    match matchPriceAt (c :: rest) with
    | some v => some v
    | none => findPrice rest

/-- A reservation link inside a Post SV table cell. -/
structure PSLink where
  href : String
  title : String
deriving DecidableEq

/-- A Post SV reservation cell: its class list and its optional link. -/
structure PSCell where
  classes : List String
  link : Option PSLink
deriving DecidableEq

/-- Model of the per-cell body of `PostSVScraperV2.scrape` (lines 244-281):
a cell contributes one slot exactly when it is marked free, carries a
reservation link, the link href carries a `time=` parameter, and the decoded
`HH:MM` time lies in the requested window. -/
def postSVSlotFromCell (dateStr dowStr courtName startT endT : String) (cell : PSCell) : List Slot :=
  if cell.classes.contains "free" then
    match cell.link with
    | some lk =>
      match findTimeParam lk.href.data with
      | some secs =>
        let timeStr := pad2 (secs / 3600) ++ ":" ++ pad2 ((secs % 3600) / 60)
        if isInTimeframe timeStr startT endT then
          [{ venue := some "Post SV Wien"
           , date := some dateStr
           , day_of_week := some dowStr
           , time := some timeStr
           , court_name := some courtName
           , court_type := some "Tennis"
           , indoor_outdoor := some "Mixed"
           , duration := some "60 min"
           , location := some "Post SV Wien, Roggendorfgasse 2"
           , price := some (euroStr ++ " " ++ (match findPrice lk.title.data with
               | some p => p
               | none => "N/A"))
           , booking_link := some lk.href }]
        else []
      | none => []
    | none => []
  else []

/-- Python truthiness of an optional string: `None` and the empty string
are falsy. -/
def truthyS : Option String → Bool
  | none => false
  | some s => !(s == "")

/-- How `None` renders inside a Python f-string. -/
def optStr : Option String → String
  | none => "None"
  | some s => s

/-- Model of the slice `text[:200]`. -/
def take200 (s : String) : String := String.mk (s.data.take 200)

/-- The observable part of the HTTP response to the booking POST:
`jsonStatus` is the integer `status` field when `response.json()` yields a
dict carrying one (else `none`), `jsonMessage` likewise the `message`
field used by the 422 branch. -/
structure PostResponse where
  status : Nat
  jsonStatus : Option Int
  jsonMessage : Option String
  text : String

/-- Outcome of the network interaction inside the try block of
`book_slot_api`: a POST response, a `requests` timeout, or another
exception. -/
inductive NetOutcome where
  | ok (r : PostResponse)
  | timeout
  | exn (msg : String)

/-- Environment of a Das Spiel booking attempt: the result of
`self.login()`, the network outcome of the booking POST, and the result
`book_slot_selenium` would produce if invoked. -/
structure ApiEnv where
  login : Bool × String
  net : NetOutcome
  selenium : Bool × String

/-- The success message of `book_slot_api`. -/
def successMsg (slot : Slot) : String :=
  "Successfully booked " ++ optStr slot.court_name ++ " on " ++ optStr slot.date ++
    " at " ++ optStr slot.time

/-- Model of `DasSpielBooker.book_slot_api` (booking.py lines 129-277):
missing or empty `square_id` fails first; then login; then the POST outcome
is classified - 200/302/303 consult the JSON status flag and the
error/fehler markers, 422, 401 and 403 give their dedicated messages, and
every other status (including 201) falls into the generic failure branch. -/
def bookSlotApi (env : ApiEnv) (slot : Slot) : Bool × String :=
  if !(truthyS slot.square_id) then
    (false, "Missing square_id for Das Spiel booking. Slot data may be outdated.")
  else if !env.login.1 then (false, "Login failed: " ++ env.login.2)
  else
    match env.net with
    | .timeout => (false, "Booking request timed out")
    | .exn e => (false, "API booking error: " ++ e)
    | .ok r =>
      if r.status == 200 || r.status == 302 || r.status == 303 then
        if r.jsonStatus == some 1 then (true, successMsg slot)
        else if r.jsonStatus == some 0 then
          (false, "Booking failed - server returned status 0 (slot may be unavailable or missing context)")
        else
          let rt := lowerL r.text.data
          if pyInL "error".data rt || pyInL "fehler".data rt then
            (false, "Booking rejected: " ++ take200 r.text)
          else (true, successMsg slot)
      else if r.status == 422 then
        (false, "Validation error: " ++ (match r.jsonMessage with
          | some m => m
          | none => r.text))
      else if r.status == 401 then (false, "Authentication failed - session may have expired")
      else if r.status == 403 then (false, "Access denied - CSRF token may be invalid")
      else (false, "Booking failed with HTTP " ++ Nat.repr r.status ++ ": " ++ take200 r.text)

/-- The non-retryable message markers of `DasSpielBooker.book_slot`. -/
def nonRetryable : List String := ["Missing square_id", "No credentials", "Validation error"]

/-- Model of `DasSpielBooker.book_slot`: the API result is returned on
success or when its message contains a non-retryable marker; otherwise the
Selenium fallback runs. -/
def bookSlot (env : ApiEnv) (slot : Slot) : Bool × String :=
  let r := bookSlotApi env slot
  if r.1 then r
  else if nonRetryable.any (fun e => pyInL e.data r.2.data) then (false, r.2)
  else env.selenium

/-- One entry of the booking-attempt history written by
`BookingHistory.add_booking`. -/
structure BookingRecord where
  timestamp : Option String
  status : String
  slot : Slot
  error : Option String

/-- Environment of `book_court`: the wall-clock value `datetime.now()`
would render, and the two venue bookers as functions whose exceptions are
the `Except.error` case. -/
structure BookEnv where
  now : String
  dasspiel : Slot → Except String (Bool × String)
  postsv : Slot → Except String (Bool × String)

/-- Model of `BookingHistory.add_booking`: append one record carrying the
current timestamp (file persistence is modelled as the returned list). -/
def addBooking (now : String) (hist : List BookingRecord) (slot : Slot)
    (status : String) (error : Option String) : List BookingRecord :=
  hist ++ [{ timestamp := some now, status := status, slot := slot, error := error }]

/-- The venue dispatch of `book_court`: substring routing on
`slot.get("venue", "")`; an unmatched venue is the unknown-venue result and
no booker is consulted. -/
def dispatchVenue (env : BookEnv) (slot : Slot) : Except String (Bool × String) :=
  let venue := slot.venue.getD ""
  if pyInS "Das Spiel" venue || pyInS "Arsenal" venue then env.dasspiel slot
  else if pyInS "Post SV" venue then env.postsv slot
  else .ok (false, "Unknown venue: " ++ venue)

/-- Model of `book_court` (booking.py lines 595-634): dispatch, then append
exactly one history record - status `success`/`failed` from a returned
result, status `error` when the dispatch raised.  The preference-engine
feedback on success does not touch the history and is omitted here; its
internals catch their own I/O errors. -/
def bookCourt (env : BookEnv) (hist : List BookingRecord) (slot : Slot) :
    (Bool × String) × List BookingRecord :=
  match dispatchVenue env slot with
  | .ok (success, message) =>
    ((success, message),
     addBooking env.now hist slot (if success then "success" else "failed")
       (if success then none else some message))
  | .error e =>
    ((false, "Booking error: " ++ e),
     addBooking env.now hist slot "error" (some ("Booking error: " ++ e)))

/-- One stored selection record, restricted to the fields the preference
scoring reads. -/
structure Selection where
  venue : Option String
  time_of_day : Option String
  day_of_week : Option String
  price : Option String
deriving DecidableEq

/-- Model of `PreferenceEngine._categorize_time_of_day`: falsy input is
unknown, else the hour before the first colon decides the bucket, with any
parse failure mapped to unknown by the bare except. -/
def categorizeTimeOfDay (t : Option String) : String :=
  match t with
  | none => "unknown"
  | some s =>
    if s == "" then "unknown"
    else
      match s.data.splitOn ':' with
      | [] => "unknown"
      | h :: _ =>
        match pyIntL h with
        | some hv => if hv < 12 then "morning" else if hv < 17 then "afternoon" else "evening"
        | none => "unknown"

/-- Occurrences of value `v` in the truthy-filtered multiset
`Counter(f(s) for s in sels if f(s))`. -/
def countTruthyEq (f : Selection → Option String) (v : String) (sels : List Selection) : Nat :=
  (sels.filter (fun s => truthyS (f s) && (f s == some v))).length

/-- Venue term of `_calculate_preference_score` (weight 3). -/
def venueScore (sels : List Selection) (v : Option String) : ℚ :=
  match v with
  | some s =>
    let c := countTruthyEq (fun x => x.venue) s sels
    if 0 < c then (c : ℚ) / (sels.length : ℚ) * 3 else 0
  | none => 0

/-- Time-of-day term of `_calculate_preference_score` (weight 2). -/
def timeScore (sels : List Selection) (t : Option String) : ℚ :=
  let c := countTruthyEq (fun x => x.time_of_day) (categorizeTimeOfDay t) sels
  if 0 < c then (c : ℚ) / (sels.length : ℚ) * 2 else 0

/-- Day-of-week term of `_calculate_preference_score` (weight 1.5). -/
def dayScore (sels : List Selection) (d : Option String) : ℚ :=
  match d with
  | some s =>
    let c := countTruthyEq (fun x => x.day_of_week) s sels
    if 0 < c then (c : ℚ) / (sels.length : ℚ) * (3 / 2) else 0
  | none => 0

/-- Model of Python `float(str)` on plain decimal literals: optional
surrounding whitespace, optional sign, digits with an optional single
point (scientific notation and specials are not modelled; prices are plain
decimals). -/
def pyFloatCore (l : List Char) : Option ℚ :=
  match l.splitOn '.' with
  | [a] => (digitsVal a).map (fun n => (n : ℚ))
  | [a, b] =>
    if a.isEmpty && b.isEmpty then none
    else
      match (if a.isEmpty then some 0 else digitsVal a),
            (if b.isEmpty then some 0 else digitsVal b) with
      | some x, some y => some ((x : ℚ) + (y : ℚ) / ((10 : ℚ) ^ b.length))
      | _, _ => none
  | _ => none

/-- Signed wrapper of `pyFloatCore`. -/
def pyFloatS (s : String) : Option ℚ :=
  match trimL s.data with
  | '-' :: ds => (pyFloatCore ds).map (fun q => -q)
  | '+' :: ds => pyFloatCore ds
  | ds => pyFloatCore ds

/-- Model of `PreferenceEngine._get_average_price`: mean of the parseable
truthy prices, `none` when there are none. -/
def averagePrice (sels : List Selection) : Option ℚ :=
  let prices := sels.filterMap (fun s =>
    match s.price with
    | some p => if !(p == "") then pyFloatS p else none
    | none => none)
  if prices.isEmpty then none else some (prices.sum / (prices.length : ℚ))

/-- Price term of `_calculate_preference_score` (weight 1): requires a
truthy nonzero average and a truthy parseable slot price, then rewards
proximity to the average. -/
def priceScore (sels : List Selection) (p : Option String) : ℚ :=
  match averagePrice sels with
  | some avg =>
    if !(avg == 0) && truthyS p then
      match (match p with
             | some s => pyFloatS s
             | none => none) with
      | some sp => max 0 (1 - |sp - avg| / avg)
      | none => 0
    else 0
  | none => 0

/-- Model of `PreferenceEngine._calculate_preference_score`: the weighted
sum of the four similarity terms. -/
def calculateScore (sels : List Selection) (slot : Slot) : ℚ :=
  venueScore sels slot.venue + timeScore sels slot.time +
    dayScore sels slot.day_of_week + priceScore sels slot.price

/-- The fixed confidence threshold of `config.py`. -/
def CONFIDENCE_THRESHOLD : Nat := 5

/-- Model of `PreferenceEngine.has_confidence`. -/
def hasConfidence (sels : List Selection) : Bool :=
  decide (CONFIDENCE_THRESHOLD ≤ sels.length)

/-- Insertion step of a stable descending sort by score: an element passes
every strictly greater head and lands before the first element with a score
at most its own, which is exactly where Python stable
`sort(reverse=True)` puts an earlier-input element relative to later
equal-scored ones. -/
def insertDesc (x : ℚ × Slot) : List (ℚ × Slot) → List (ℚ × Slot)
  | [] => [x]
  | y :: ys => if x.1 < y.1 then y :: insertDesc x ys else x :: y :: ys

/-- Stable descending sort of the scored slots
(`scored_slots.sort(reverse=True, key=lambda x: x[0])`). -/
def sortDesc (l : List (ℚ × Slot)) : List (ℚ × Slot) := l.foldr insertDesc []

/-- Model of `PreferenceEngine.get_preferred_slot`: `none` without
confidence or candidates, else the slot of the head of the stable
descending sort of the scored candidates. -/
def getPreferredSlot (sels : List Selection) (slots : List Slot) : Option Slot :=
  if !(hasConfidence sels) || slots.isEmpty then none
  else ((sortDesc (slots.map (fun s => (calculateScore sels s, s)))).head?).map (fun p => p.2)

/-! Helper lemmas shared by the claims. -/

theorem isPrefixL_append (l m : List Char) : isPrefixL l (l ++ m) = true := by
  induction l with
  | nil => rfl
  | cons a as ih => simp [isPrefixL, ih]

theorem pyInL_of_isPrefixL {n l : List Char} (h : isPrefixL n l = true) : pyInL n l = true := by
  cases l with
  | nil =>
    cases n with
    | nil => rfl
    | cons a as => simp [isPrefixL] at h
  | cons c rest => simp [pyInL, h]

theorem pyInL_append_right (n m : List Char) : pyInL n (n ++ m) = true :=
  pyInL_of_isPrefixL (isPrefixL_append n m)

theorem containsNat_iff (l : List Nat) (a : Nat) : l.contains a = true ↔ a ∈ l := by
  induction l with
  | nil => simp
  | cons b bs ih => simp [List.contains]

theorem genTimesAux_mem (endT tb : Nat) (booked : List Nat) :
    ∀ fuel cur t, 1 ≤ tb → endT - cur ≤ fuel →
      (t ∈ genTimesAux endT tb booked fuel cur ↔
        (∃ k, t = cur + k * tb) ∧ t < endT ∧ t ∉ booked) := by
  intro fuel
  induction fuel with
  | zero =>
    intro cur t htb hfuel
    simp only [genTimesAux, List.not_mem_nil, false_iff]
    rintro ⟨⟨k, riffle⟩, hlt, -⟩
    subst riffle
    omega
  | succ n ih =>
    intro cur t htb hfuel
    simp only [genTimesAux]
    by_cases hcur : cur < endT
    · simp only [if_pos hcur, List.mem_append]
      have hrec := ih (cur + tb) t htb (by omega)
      rw [hrec]
      have hhead : t ∈ (if booked.contains cur then ([] : List Nat) else [cur]) ↔
          (cur ∉ booked ∧ t = cur) := by
        by_cases hb : booked.contains cur
        · simp [hb, (containsNat_iff booked cur).mp hb]
        · have hnmem : cur ∉ booked := fun hm => hb ((containsNat_iff booked cur).mpr hm)
          simp [hb, hnmem]
      rw [hhead]
      constructor
      · rintro (⟨hnb, rfl⟩ | ⟨⟨k, rfl⟩, hlt, hnb⟩)
        · exact ⟨⟨0, by omega⟩, hcur, hnb⟩
        · refine ⟨⟨k + 1, ?_⟩, hlt, hnb⟩
          rw [Nat.succ_mul]
          omega
      · rintro ⟨⟨k, rfl⟩, hlt, hnb⟩
        cases k with
        | zero => exact Or.inl ⟨by simpa using hnb, by omega⟩
        | succ k =>
          refine Or.inr ⟨⟨k, ?_⟩, hlt, hnb⟩
          rw [Nat.succ_mul] at *
          omega
    · simp only [if_neg hcur, List.not_mem_nil, false_iff]
      rintro ⟨⟨k, rfl⟩, hlt, -⟩
      omega

theorem genTimes_mem (cur endT tb : Nat) (booked : List Nat) (t : Nat) (htb : 1 ≤ tb) :
    t ∈ genTimes cur endT tb booked ↔
      (∃ k, t = cur + k * tb) ∧ t < endT ∧ t ∉ booked :=
  genTimesAux_mem endT tb booked (endT - cur) cur t htb (Nat.le_refl _)

/-- C5: the Arsenal adapter does NOT implement the spec sentence literally.
Counterexample: user window 14:30-16:30, court open 07:00:00, close
22:00:00, timeblock 60, one rental 14:00-16:00.  The code generates the
slots 14:30 and 15:30 (870 and 930 minutes) although both start hours (14
and 15) lie in the booked hour set, while the spec-prescribed result set is
empty; in particular hour 14 is booked yet slot 870 is produced. -/
theorem c5_counterexample :
    dasSpielTimes 14 30 16 30 7 22 60 [(14, 16)] = [870, 930] ∧
      specAvailableTimes (14 * 60 + 30) (16 * 60 + 30) (7 * 60) (22 * 60) 60
        (specBookedHours [(14, 16)]) = [] ∧
      14 ∈ specBookedHours [(14, 16)] := by
  refine ⟨by decide, by decide, by decide⟩

/-- C5 (amended): characterization of the start times the Arsenal adapter
actually generates: for a positive timeblock, a time is produced iff it is
reachable from the start bound `max(user_start, court_open_hour)` in
timeblock steps, lies strictly before the end bound (min hour with the user
minute whenever the user end hour is at most the court end hour), and is
not literally equal to one of the booked `HH:00` entries - so a slot
starting at a nonzero minute is never excluded, even when its hour is
fully rented. -/
theorem c5_generated_times (ush usm ueh uem csh ceh tb : Nat)
    (rentals : List (Nat × Nat)) (t : Nat) (htb : 1 ≤ tb) :
    t ∈ dasSpielTimes ush usm ueh uem csh ceh tb rentals ↔
      (∃ k, t = dasSpielStartMin ush usm csh + k * tb) ∧
        t < dasSpielEndMin ueh uem ceh ∧ t ∉ bookedTimes rentals := by
  unfold dasSpielTimes
  exact genTimes_mem _ _ _ _ t htb

/-- C5 witness: the characterization applied at the counterexample input
shows slot 870 (14:30) is generated. -/
theorem c5_generated_times_witness :
    870 ∈ dasSpielTimes 14 30 16 30 7 22 60 [(14, 16)] :=
  (c5_generated_times 14 30 16 30 7 22 60 [(14, 16)] 870 (by decide)).mpr
    ⟨⟨0, by decide⟩, by decide, by decide⟩

/-- C3: every invocation of `book_court` appends exactly one record to the
booking history, with a non-null timestamp and status `success`, `failed`
or `error`, for every environment (including a raising venue booker),
history and slot. -/
theorem c3_book_court_appends_one_record (env : BookEnv) (hist : List BookingRecord) (slot : Slot) :
    ∃ rec : BookingRecord, (bookCourt env hist slot).2 = hist ++ [rec] ∧
      rec.timestamp.isSome = true ∧
      (rec.status = "success" ∨ rec.status = "failed" ∨ rec.status = "error") := by
  unfold bookCourt
  cases h : dispatchVenue env slot with
  | ok p =>
    rcases p with ⟨s, m⟩
    cases s
    · exact ⟨{ timestamp := some env.now, status := "failed", slot := slot, error := some m },
        by simp [addBooking], rfl, Or.inr (Or.inl rfl)⟩
    · exact ⟨{ timestamp := some env.now, status := "success", slot := slot, error := none },
        by simp [addBooking], rfl, Or.inl rfl⟩
  | error e =>
    exact ⟨{ timestamp := some env.now, status := "error", slot := slot,
             error := some ("Booking error: " ++ e) },
      by simp [addBooking], rfl, Or.inr (Or.inr rfl)⟩

/-- C4: for a slot whose venue contains neither "Das Spiel" nor "Arsenal"
nor "Post SV", `book_court` returns `(false, "Unknown venue: <venue>")`
and logs one failed attempt; the result is the same for any two
environments sharing the clock value, i.e. the venue bookers (the only
network users) are never consulted. -/
theorem c4_unknown_venue (envA envB : BookEnv) (hist : List BookingRecord) (slot : Slot)
    (hnow : envA.now = envB.now)
    (h1 : pyInS "Das Spiel" (slot.venue.getD "") = false)
    (h2 : pyInS "Arsenal" (slot.venue.getD "") = false)
    (h3 : pyInS "Post SV" (slot.venue.getD "") = false) :
    bookCourt envA hist slot =
      ((false, "Unknown venue: " ++ slot.venue.getD ""),
        addBooking envA.now hist slot "failed"
          (some ("Unknown venue: " ++ slot.venue.getD ""))) ∧
      bookCourt envA hist slot = bookCourt envB hist slot := by
  have hd : ∀ env : BookEnv, dispatchVenue env slot =
      .ok (false, "Unknown venue: " ++ slot.venue.getD "") := by
    intro env
    unfold dispatchVenue
    simp [h1, h2, h3]
  constructor
  · rw [bookCourt, hd envA]
    rfl
  · rw [bookCourt, bookCourt, hd envA, hd envB, hnow]


/-- C4 witness: a concrete gym slot against two different environments. -/
theorem c4_unknown_venue_witness :
    bookCourt
        { now := "2026-01-21T10:00:00"
        , dasspiel := fun _ => .ok (true, "das spiel booked")
        , postsv := fun _ => .ok (true, "post sv booked") }
        [] { venue := some "City Gym" } =
      ((false, "Unknown venue: City Gym"),
        addBooking "2026-01-21T10:00:00" [] { venue := some "City Gym" } "failed"
          (some "Unknown venue: City Gym")) :=
  (c4_unknown_venue
    { now := "2026-01-21T10:00:00"
    , dasspiel := fun _ => .ok (true, "das spiel booked")
    , postsv := fun _ => .ok (true, "post sv booked") }
    { now := "2026-01-21T10:00:00"
    , dasspiel := fun _ => .error "down"
    , postsv := fun _ => .error "down" }
    [] { venue := some "City Gym" } rfl (by decide) (by decide) (by decide)).1

/-- C6: the claim is false as stated.  With today a Tuesday (weekday 1) the
text "monday or tuesday" contains the weekday name "tuesday" equal to
today and no explicit or relative date pattern, yet parse returns the date
6 days ahead, not 7: the WEEKDAYS loop hits "monday" first. -/
theorem c6_counterexample :
    pyInL "tuesday".data (pyNormL "monday or tuesday") = true ∧
      findD1 (pyNormL "monday or tuesday") = none ∧
      findD2 (pyNormL "monday or tuesday") = none ∧
      pyInL "today".data (pyNormL "monday or tuesday") = false ∧
      pyInL "tomorrow".data (pyNormL "monday or tuesday") = false ∧
      pyInL "next week".data (pyNormL "monday or tuesday") = false ∧
      (tfParse 1 "monday or tuesday").date = DateResult.offset 6 ∧
      DateResult.offset 6 ≠ DateResult.offset 7 := by
  refine ⟨by decide, by decide, by decide, by decide, by decide, by decide, by decide, by decide⟩

/-- C6 (amended): for every text with no explicit or relative date pattern
whose FIRST weekday-name hit in the dictionary order monday, mon, tuesday,
tue, ... has the weekday number of today, parse returns the date exactly 7
days ahead of today (in particular never today). -/
theorem c6_weekday_match (text : String) (todayW w : Nat)
    (hd1 : findD1 (pyNormL text) = none) (hd2 : findD2 (pyNormL text) = none)
    (ht : pyInL "today".data (pyNormL text) = false)
    (htm : pyInL "tomorrow".data (pyNormL text) = false)
    (hnw : pyInL "next week".data (pyNormL text) = false)
    (hw : firstWeekday (pyNormL text) = some w)
    (heq : w = todayW) :
    (tfParse todayW text).date = DateResult.offset 7 := by
  subst heq
  unfold tfParse extractDate
  simp [hd1, hd2, ht, htm, hnw, hw]

/-- C6 witness: parsing "on tuesday" when today is Tuesday yields the date
one week ahead. -/
theorem c6_weekday_match_witness : (tfParse 1 "on tuesday").date = DateResult.offset 7 :=
  c6_weekday_match "on tuesday" 1 1 (by decide) (by decide) (by decide) (by decide)
    (by decide) (by decide) rfl

/-- C7: parse is total by construction (every fallible construct of the
source is modelled by its caught-exception branch), and the defaults hold:
with no recognizable date pattern the date is today (offset 0), and with no
recognizable time pattern the range is 09:00 to 21:00. -/
theorem c7_parse_defaults (text : String) (todayW : Nat) :
    (findD1 (pyNormL text) = none → findD2 (pyNormL text) = none →
      pyInL "today".data (pyNormL text) = false →
      pyInL "tomorrow".data (pyNormL text) = false →
      pyInL "next week".data (pyNormL text) = false →
      firstWeekday (pyNormL text) = none →
      (tfParse todayW text).date = DateResult.offset 0) ∧
    (findAt (pyNormL text) = none → findP1 (pyNormL text) = none →
      findP2 (pyNormL text) = none → findP3 (pyNormL text) = none →
      findBetween (pyNormL text) = none →
      (tfParse todayW text).start_time = "09:00" ∧ (tfParse todayW text).end_time = "21:00") := by
  constructor
  · intro h1 h2 h3 h4 h5 h6
    unfold tfParse extractDate
    simp [h1, h2, h3, h4, h5, h6]
  · intro h1 h2 h3 h4 h5
    unfold tfParse extractTimeRange
    simp [h1, h2, h3, h4, h5]

/-- C7 witness: a dateless, timeless request gets today and the default
09:00-21:00 window. -/
theorem c7_parse_defaults_witness :
    (tfParse 0 "book a court please").date = DateResult.offset 0 ∧
      (tfParse 0 "book a court please").start_time = "09:00" ∧
      (tfParse 0 "book a court please").end_time = "21:00" := by
  have h := c7_parse_defaults "book a court please" 0
  exact ⟨h.1 (by decide) (by decide) (by decide) (by decide) (by decide) (by decide),
    h.2 (by decide) (by decide) (by decide) (by decide) (by decide)⟩

/-- C8: whenever the first-priority `at HH:MM` pattern matches with hour h
and minute m, parse returns the one-hour window from h:m to
((h+1) mod 24):m with the minute preserved. -/
theorem c8_at_time_window (text : String) (todayW h m : Nat)
    (hat : findAt (pyNormL text) = some (h, m)) :
    (tfParse todayW text).start_time = pad2 h ++ ":" ++ pad2 m ∧
      (tfParse todayW text).end_time = pad2 ((h + 1) % 24) ++ ":" ++ pad2 m := by
  unfold tfParse extractTimeRange
  simp [hat]

/-- C8 witness: parse of "at 23:30" gives 23:30 to 00:30, wrapping the
hour past midnight. -/
theorem c8_at_time_window_witness :
    (tfParse 0 "at 23:30").start_time = "23:30" ∧ (tfParse 0 "at 23:30").end_time = "00:30" := by
  have h := c8_at_time_window "at 23:30" 0 23 30 (by decide)
  exact ⟨h.1.trans (by decide), h.2.trans (by decide)⟩

/-- C1: the V2 Arsenal adapter never sets `square_id` (the slot dict of
lines 112-123 has no such key, although the calendar payload carries a
court `uuid`), so the missing-square_id failure branch of `book_slot_api`
fires for every slot it discovers, even in a fully healthy environment,
and `book_slot` does not rescue it (the marker is non-retryable). -/
theorem c1_scraped_slots_lack_square_id :
    (dasSpielSlots "Platz 5" "2026-01-21" "Wednesday" 14 0 16 0 7 22 60 []).map
        (fun s => s.square_id) = [none, none] ∧
      bookSlotApi
        { login := (true, "Login successful")
        , net := .ok { status := 200, jsonStatus := some 1, jsonMessage := none, text := "" }
        , selenium := (true, "selenium booked") }
        ((dasSpielSlots "Platz 5" "2026-01-21" "Wednesday" 14 0 16 0 7 22 60 []).headD {}) =
        (false, "Missing square_id for Das Spiel booking. Slot data may be outdated.") ∧
      bookSlot
        { login := (true, "Login successful")
        , net := .ok { status := 200, jsonStatus := some 1, jsonMessage := none, text := "" }
        , selenium := (true, "selenium booked") }
        ((dasSpielSlots "Platz 5" "2026-01-21" "Wednesday" 14 0 16 0 7 22 60 []).headD {}) =
        (false, "Missing square_id for Das Spiel booking. Slot data may be outdated.") := by
  refine ⟨by decide, by decide, by decide⟩

/-- C2: the claim is false as stated.  A 201 response, even with JSON
status 1, is not interpreted as success (it falls into the generic failure
branch), and a 401 response does trigger the Selenium browser fallback
inside `book_slot` (as does 403): only the 422 validation message carries a
non-retryable marker. -/
theorem c2_counterexample :
    bookSlotApi
        { login := (true, "ok")
        , net := .ok { status := 201, jsonStatus := some 1, jsonMessage := none, text := "" }
        , selenium := (true, "SELENIUM-BOOKED") }
        { square_id := some "u1" } =
      (false, "Booking failed with HTTP 201: ") ∧
    bookSlot
        { login := (true, "ok")
        , net := .ok { status := 401, jsonStatus := none, jsonMessage := none, text := "" }
        , selenium := (true, "SELENIUM-BOOKED") }
        { square_id := some "u1" } =
      (true, "SELENIUM-BOOKED") := by
  refine ⟨by decide, by decide⟩

theorem bookSlot_of_api_failed (env : ApiEnv) (slot : Slot) (m : String)
    (hapi : bookSlotApi env slot = (false, m)) :
    bookSlot env slot =
      (if nonRetryable.any (fun e => pyInL e.data m.data) then (false, m) else env.selenium) := by
  unfold bookSlot
  rw [hapi]
  rfl

/-- C2 (amended): with a present square_id and successful login, statuses
200/302/303 with JSON status 1 are success; 422, 401 and 403 produce their
three distinct failure messages, but only the validation failure (422) is
non-retryable in `book_slot` - for 401 and 403 `book_slot` returns
whatever the Selenium fallback produces. -/
theorem c2_status_handling (env : ApiEnv) (slot : Slot) (r : PostResponse)
    (hsq : truthyS slot.square_id = true)
    (hlog : env.login.1 = true)
    (hnet : env.net = NetOutcome.ok r) :
    ((r.status = 200 ∨ r.status = 302 ∨ r.status = 303) → r.jsonStatus = some 1 →
      bookSlotApi env slot = (true, successMsg slot)) ∧
    (r.status = 422 →
      bookSlot env slot = (false, "Validation error: " ++ (match r.jsonMessage with
        | some msg => msg
        | none => r.text))) ∧
    (r.status = 401 → bookSlot env slot = env.selenium) ∧
    (r.status = 403 → bookSlot env slot = env.selenium) := by
  refine ⟨?_, ?_, ?_, ?_⟩
  · intro hst hjson
    rcases hst with h | h | h <;>
      · unfold bookSlotApi
        simp [hsq, hlog, hnet, h, hjson]
  · intro hst
    have hapi : bookSlotApi env slot = (false, "Validation error: " ++
        (match r.jsonMessage with
          | some msg => msg
          | none => r.text)) := by
      unfold bookSlotApi
      simp [hsq, hlog, hnet, hst]
    have hmark : pyInL "Validation error".data
        ("Validation error: " ++ (match r.jsonMessage with
          | some msg => msg
          | none => r.text)).data = true :=
      pyInL_append_right "Validation error".data
        (':' :: ' ' :: (match r.jsonMessage with
          | some msg => msg
          | none => r.text).data)
    rw [bookSlot_of_api_failed env slot _ hapi]
    have hany : nonRetryable.any (fun e => pyInL e.data
        ("Validation error: " ++ (match r.jsonMessage with
          | some msg => msg
          | none => r.text)).data) = true := by
      show (pyInL "Missing square_id".data _ ||
        (pyInL "No credentials".data _ || (pyInL "Validation error".data _ || false))) = true
      rw [hmark]
      simp
    rw [if_pos hany]
  · intro hst
    have hapi : bookSlotApi env slot = (false, "Authentication failed - session may have expired") := by
      unfold bookSlotApi
      simp [hsq, hlog, hnet, hst]
    rw [bookSlot_of_api_failed env slot _ hapi]
    have hmark : (nonRetryable.any (fun e =>
        pyInL e.data ("Authentication failed - session may have expired").data)) = false := by
      decide
    rw [if_neg (by rw [hmark]; simp)]
  · intro hst
    have hapi : bookSlotApi env slot = (false, "Access denied - CSRF token may be invalid") := by
      unfold bookSlotApi
      simp [hsq, hlog, hnet, hst]
    rw [bookSlot_of_api_failed env slot _ hapi]
    have hmark : (nonRetryable.any (fun e =>
        pyInL e.data ("Access denied - CSRF token may be invalid").data)) = false := by
      decide
    rw [if_neg (by rw [hmark]; simp)]

/-- A concrete slot used to witness the C2 status classification. -/
def c2WitSlot : Slot :=
  { square_id := some "u1"
  , court_name := some "Platz 5"
  , date := some "2026-01-21"
  , time := some "14:00" }

/-- A concrete 200 response used to witness the C2 status classification. -/
def c2WitResp200 : PostResponse :=
  { status := 200, jsonStatus := some 1, jsonMessage := none, text := "" }

/-- A concrete 422 response used to witness the C2 status classification. -/
def c2WitResp422 : PostResponse :=
  { status := 422, jsonStatus := none, jsonMessage := some "slot taken", text := "" }

/-- A concrete environment around a given response. -/
def c2WitEnv (r : PostResponse) : ApiEnv :=
  { login := (true, "ok"), net := .ok r, selenium := (false, "sel") }

/-- C2 witness: concrete instances of the classified outcomes. -/
theorem c2_status_handling_witness :
    bookSlotApi (c2WitEnv c2WitResp200) c2WitSlot = (true, successMsg c2WitSlot) ∧
      bookSlot (c2WitEnv c2WitResp422) c2WitSlot = (false, "Validation error: slot taken") := by
  constructor
  · exact (c2_status_handling (c2WitEnv c2WitResp200) c2WitSlot c2WitResp200
      (by decide) rfl rfl).1 (Or.inl rfl) rfl
  · exact (c2_status_handling (c2WitEnv c2WitResp422) c2WitSlot c2WitResp422
      (by decide) rfl rfl).2.1 rfl

/-- C10: a discovered free Post SV cell with a decodable `time=` parameter
is included iff its decoded `HH:MM` start lies in the half-open window
from the requested start to the requested end, compared as minutes since
midnight; and an unparseable time string makes `_is_in_timeframe` return
false instead of raising. -/
theorem c10_postsv_window
    (dateStr dowStr courtName startT endT : String) (cell : PSCell) (lk : PSLink)
    (secs : Nat) (sh sm eh em th tm : Int)
    (hfree : cell.classes.contains "free" = true)
    (hlink : cell.link = some lk)
    (htime : findTimeParam lk.href.data = some secs)
    (hparse : parseHM (pad2 (secs / 3600) ++ ":" ++ pad2 ((secs % 3600) / 60)) = some (th, tm))
    (hs : parseHM startT = some (sh, sm))
    (he : parseHM endT = some (eh, em)) :
    (postSVSlotFromCell dateStr dowStr courtName startT endT cell ≠ [] ↔
      (sh * 60 + sm ≤ th * 60 + tm ∧ th * 60 + tm < eh * 60 + em)) ∧
    (∀ t s e : String, parseHM t = none → isInTimeframe t s e = false) := by
  constructor
  · unfold postSVSlotFromCell
    have hin : isInTimeframe (pad2 (secs / 3600) ++ ":" ++ pad2 ((secs % 3600) / 60)) startT endT =
        (decide (sh * 60 + sm ≤ th * 60 + tm) && decide (th * 60 + tm < eh * 60 + em)) := by
      unfold isInTimeframe
      rw [hparse, hs, he]
    simp only [hfree, hlink, htime, if_true]
    rw [hin]
    by_cases hcond : sh * 60 + sm ≤ th * 60 + tm ∧ th * 60 + tm < eh * 60 + em
    · simp [hcond]
    · simp only [hcond, iff_false, ne_eq, not_not]
      have : (decide (sh * 60 + sm ≤ th * 60 + tm) && decide (th * 60 + tm < eh * 60 + em)) = false := by
        rcases Decidable.not_and_iff_or_not.mp hcond with h | h <;> simp [h]
      rw [this]
      rfl
  · intro t s e hnone
    unfold isInTimeframe
    rw [hnone]

/-- A concrete free cell used to witness the C10 window rule. -/
def c10WitCell : PSCell :=
  { classes := ["reservationcell", "free"]
  , link := some { href := "reservation.html?time=54000", title := "" } }

/-- C10 witness: a free 15:00 cell is included in a 09:00-21:00 request. -/
theorem c10_postsv_window_witness :
    postSVSlotFromCell "2026-01-21" "Wednesday" "Platz 3" "09:00" "21:00" c10WitCell ≠ [] :=
  ((c10_postsv_window "2026-01-21" "Wednesday" "Platz 3" "09:00" "21:00" c10WitCell
      { href := "reservation.html?time=54000", title := "" } 54000 9 0 21 0 15 0
      (by decide) rfl (by decide) (by decide) (by decide) (by decide)).1).mpr (by decide)

theorem mem_insertDesc (x y : ℚ × Slot) (l : List (ℚ × Slot)) :
    y ∈ insertDesc x l ↔ y = x ∨ y ∈ l := by
  induction l with
  | nil => simp [insertDesc]
  | cons z zs ih =>
    unfold insertDesc
    by_cases h : x.1 < z.1
    · simp only [if_pos h, List.mem_cons, ih]
      tauto
    · simp only [if_neg h, List.mem_cons]

theorem mem_sortDesc (y : ℚ × Slot) (l : List (ℚ × Slot)) :
    y ∈ sortDesc l ↔ y ∈ l := by
  induction l with
  | nil => simp [sortDesc]
  | cons x xs ih =>
    show y ∈ insertDesc x (sortDesc xs) ↔ _
    rw [mem_insertDesc]
    simp [ih, List.mem_cons]

theorem sortDesc_head_two_level (p : Slot → Bool) (hi lo : ℚ) (hlt : lo < hi) :
    ∀ l : List (ℚ × Slot),
      (∀ x ∈ l, (p x.2 = true ∧ x.1 = hi) ∨ (p x.2 = false ∧ x.1 = lo)) →
      (∃ x ∈ l, p x.2 = true) →
      (sortDesc l).head? = l.find? (fun x => p x.2) := by
  intro l
  induction l with
  | nil =>
    intro _ hex
    rcases hex with ⟨x, hx, _⟩
    exact absurd hx (List.not_mem_nil x)
  | cons a as ih =>
    intro hkey hex
    by_cases hpa : p a.2 = true
    · rw [List.find?_cons_of_pos _ (by simpa using hpa)]
      show (insertDesc a (sortDesc as)).head? = some a
      cases hsd : sortDesc as with
      | nil => simp [insertDesc]
      | cons b bs =>
        have hbmem : b ∈ as := (mem_sortDesc b as).mp (hsd ▸ List.mem_cons_self b bs)
        have hble : b.1 ≤ hi := by
          rcases hkey b (List.mem_cons_of_mem a hbmem) with ⟨_, h⟩ | ⟨_, h⟩
          · exact le_of_eq h
          · exact le_of_lt (h ▸ hlt)
        have ha1 : a.1 = hi := by
          rcases hkey a (List.mem_cons_self a as) with ⟨_, h⟩ | ⟨h, _⟩
          · exact h
          · rw [hpa] at h
            cases h
        have hnlt : ¬ a.1 < b.1 := by
          rw [ha1]
          exact not_lt.mpr hble
        simp [insertDesc, hnlt]
    · have hpa2 : p a.2 = false := by
        revert hpa
        cases p a.2 <;> simp
      have hex2 : ∃ x ∈ as, p x.2 = true := by
        rcases hex with ⟨x, hx, hpx⟩
        rcases List.mem_cons.mp hx with rfl | hxs
        · rw [hpx] at hpa2
          cases hpa2
        · exact ⟨x, hxs, hpx⟩
      have ih2 := ih (fun x hx => hkey x (List.mem_cons_of_mem a hx)) hex2
      rw [List.find?_cons_of_neg _ (by simp [hpa2]), ← ih2]
      show (insertDesc a (sortDesc as)).head? = (sortDesc as).head?
      cases hsd : sortDesc as with
      | nil =>
        exfalso
        rcases hex2 with ⟨x, hx, _⟩
        have hm := (mem_sortDesc x as).mpr hx
        rw [hsd] at hm
        exact absurd hm (List.not_mem_nil x)
      | cons b bs =>
        have hbmem : b ∈ as := (mem_sortDesc b as).mp (hsd ▸ List.mem_cons_self b bs)
        have hfb : as.find? (fun x => p x.2) = some b := by
          rw [← ih2, hsd]
          rfl
        have hpb : p b.2 = true := by simpa using List.find?_some hfb
        have hb1 : b.1 = hi := by
          rcases hkey b (List.mem_cons_of_mem a hbmem) with ⟨_, h⟩ | ⟨h, _⟩
          · exact h
          · rw [hpb] at h
            cases h
        have ha1 : a.1 = lo := by
          rcases hkey a (List.mem_cons_self a as) with ⟨h, _⟩ | ⟨_, h⟩
          · rw [hpa2] at h
            cases h
          · exact h
        have hlt2 : a.1 < b.1 := by
          rw [ha1, hb1]
          exact hlt
        simp [insertDesc, hlt2]

theorem find?_map_pair (f : Slot → ℚ) (q : ℚ × Slot → Bool) (p : Slot → Bool)
    (hq : ∀ a : ℚ × Slot, q a = p a.2) (l : List Slot) :
    (l.map (fun s => (f s, s))).find? q = (l.find? p).map (fun s => (f s, s)) := by
  induction l with
  | nil => rfl
  | cons a as ih =>
    by_cases h : p a = true
    · rw [List.map_cons, List.find?_cons_of_pos _ (by rw [hq]; simpa using h),
        List.find?_cons_of_pos _ h]
      rfl
    · have h2 : p a = false := by
        revert h
        cases p a <;> simp
      rw [List.map_cons, List.find?_cons_of_neg _ (by rw [hq]; simp [h2]),
        List.find?_cons_of_neg _ (by simp [h2]), ih]

/-- C9: with a history of exactly 5 selections all at a (nonempty) venue A,
any candidate list drawn from venues A and B (B different from A) with all
other scored attributes equal and containing at least one venue-A
candidate, `get_preferred_slot` returns exactly the first venue-A candidate
in input order - the stable descending sort puts the first maximal-score
candidate at the head, and every venue-A candidate outscores every venue-B
candidate by the venue weight 3. -/
theorem c9_venue_preference (sels : List Selection) (cands : List Slot) (A B : String)
    (t0 d0 p0 : Option String)
    (hlen : sels.length = 5)
    (hA : A ≠ "")
    (hAB : B ≠ A)
    (hv : ∀ s ∈ sels, s.venue = some A)
    (hcv : ∀ c ∈ cands, c.venue = some A ∨ c.venue = some B)
    (htime : ∀ c ∈ cands, c.time = t0)
    (hdow : ∀ c ∈ cands, c.day_of_week = d0)
    (hprice : ∀ c ∈ cands, c.price = p0)
    (hex : ∃ c ∈ cands, c.venue = some A) :
    getPreferredSlot sels cands = cands.find? (fun c => c.venue == some A) ∧
      ∃ c, getPreferredSlot sels cands = some c ∧ c.venue = some A := by
  have hcountA : countTruthyEq (fun x => x.venue) A sels = 5 := by
    unfold countTruthyEq
    have hfil : sels.filter (fun s => truthyS s.venue && (s.venue == some A)) = sels := by
      apply List.filter_eq_self.mpr
      intro s hs
      rw [hv s hs]
      simp [truthyS, hA]
    rw [hfil, hlen]
  have hcountB : countTruthyEq (fun x => x.venue) B sels = 0 := by
    unfold countTruthyEq
    have hfil : sels.filter (fun s => truthyS s.venue && (s.venue == some B)) = [] := by
      apply List.filter_eq_nil_iff.mpr
      intro s hs
      rw [hv s hs]
      simp [Ne.symm hAB]
    rw [hfil]
    rfl
  have hvsA : venueScore sels (some A) = 3 := by
    simp only [venueScore]
    rw [hcountA, hlen]
    norm_num
  have hvsB : venueScore sels (some B) = 0 := by
    simp only [venueScore]
    rw [hcountB]
    norm_num
  set common := timeScore sels t0 + dayScore sels d0 + priceScore sels p0 with hcommon
  have hscore : ∀ c ∈ cands,
      calculateScore sels c = (if c.venue == some A then (3 : ℚ) + common else common) := by
    intro c hc
    unfold calculateScore
    rw [htime c hc, hdow c hc, hprice c hc]
    rcases hcv c hc with h | h
    · rw [h, hvsA]
      simp only [beq_self_eq_true, if_true]
      rw [hcommon]
      ring
    · rw [h, hvsB]
      have hbeq : (some B == some A) = false := by simp [hAB]
      rw [hbeq]
      simp only [Bool.false_eq_true, if_false]
      rw [hcommon]
      ring
  have hpairs : ∀ x ∈ cands.map (fun s => (calculateScore sels s, s)),
      ((fun c => c.venue == some A) x.2 = true ∧ x.1 = 3 + common) ∨
      ((fun c => c.venue == some A) x.2 = false ∧ x.1 = common) := by
    intro x hx
    rcases List.mem_map.mp hx with ⟨c, hc, rfl⟩
    by_cases hc2 : (c.venue == some A) = true
    · exact Or.inl ⟨hc2, by rw [hscore c hc, if_pos hc2]⟩
    · have hc3 : (c.venue == some A) = false := by
        revert hc2
        cases c.venue == some A <;> simp
      exact Or.inr ⟨hc3, by rw [hscore c hc, if_neg (by simp [hc3])]⟩
  have hexp : ∃ x ∈ cands.map (fun s => (calculateScore sels s, s)),
      (fun c => c.venue == some A) x.2 = true := by
    rcases hex with ⟨c, hc, hcA⟩
    exact ⟨(calculateScore sels c, c), List.mem_map_of_mem _ hc, by simp [hcA]⟩
  have hlo : common < 3 + common := by linarith
  have hmain := sortDesc_head_two_level (fun c => c.venue == some A) (3 + common) common hlo
    (cands.map (fun s => (calculateScore sels s, s))) hpairs hexp
  have hconf : hasConfidence sels = true := by
    simp [hasConfidence, CONFIDENCE_THRESHOLD, hlen]
  have hne : cands.isEmpty = false := by
    rcases hex with ⟨c, hc, _⟩
    cases cands
    · exact absurd hc (List.not_mem_nil c)
    · rfl
  have hg : getPreferredSlot sels cands = cands.find? (fun c => c.venue == some A) := by
    unfold getPreferredSlot
    rw [hconf, hne]
    simp only [Bool.not_true, Bool.false_or, Bool.false_eq_true, if_false]
    rw [hmain, find?_map_pair (calculateScore sels) _ (fun c => c.venue == some A)
      (fun a => rfl) cands]
    cases cands.find? (fun c => c.venue == some A) <;> rfl
  refine ⟨hg, ?_⟩
  have hsome : (cands.find? (fun c => c.venue == some A)).isSome := by
    rw [List.find?_isSome]
    rcases hex with ⟨c, hc, hcA⟩
    exact ⟨c, hc, by simp [hcA]⟩
  rcases Option.isSome_iff_exists.mp hsome with ⟨c, hc⟩
  refine ⟨c, by rw [hg, hc], ?_⟩
  simpa using List.find?_some hc

/-- A concrete selection used to witness C9. -/
def c9WitSel : Selection :=
  { venue := some "A", time_of_day := some "evening", day_of_week := some "Monday", price := none }

/-- A concrete venue-A candidate used to witness C9. -/
def c9WitSlotA : Slot := { venue := some "A", time := some "18:00", day_of_week := some "Monday" }

/-- A concrete venue-B candidate used to witness C9. -/
def c9WitSlotB : Slot := { venue := some "B", time := some "18:00", day_of_week := some "Monday" }

/-- C9 witness: among B, A, B with 5 selections at A, the engine returns
the first A candidate. -/
theorem c9_venue_preference_witness :
    getPreferredSlot (List.replicate 5 c9WitSel) [c9WitSlotB, c9WitSlotA, c9WitSlotB] =
      List.find? (fun c => c.venue == some "A") [c9WitSlotB, c9WitSlotA, c9WitSlotB] :=
  (c9_venue_preference (List.replicate 5 c9WitSel) [c9WitSlotB, c9WitSlotA, c9WitSlotB]
    "A" "B" (some "18:00") (some "Monday") none
    (by decide) (by decide) (by decide) (by decide) (by decide) (by decide)
    (by decide) (by decide) (by decide)).1
